import Mathlib

/-!
Shallow embedding of the NovaLang core (register-based bytecode VM) and proofs
about its specification claims.

Sources embedded:
- src/instruction.rs   (32-bit instruction codec)
- src/bytecode.rs      (opcode set and dispatch lookup table)
- src/register.rs      (tagged register values, register ids)
- src/object.rs        (heap object model)
- src/frame.rs         (call frames)
- src/machine.rs       (the virtual machine: loader, dispatch loop, opcode
                        implementations)
- src/compiler/generator.rs (the bytecode generator; only the numeric-literal
                        lowering is needed by the claims)

Machine integers are modelled as Nat (unsigned) or Int (signed) with explicit
wrap-around (mod 2^32 / 2^64) exactly where the Rust code performs wrapping
unsigned arithmetic or an `as` cast.  Rust operations that can panic (Vec
indexing out of bounds, todo!(), integer-division overflow) or that are
undefined (get_unchecked out of bounds) are modelled by Option, with `none`
standing for the panic or undefined behaviour.  IEEE-754 doubles are carried
as their 64-bit patterns; the bit-level float operations actually needed by
the claims (sign negation, comparisons, truncating casts to i32, exact
integer-to-double conversion) are implemented exactly as integer arithmetic
on those patterns.  Branches of the source that require general IEEE-754
arithmetic (float add/sub/mul/div/powf) or decimal formatting of floats are
mapped to `none`: no claim of this development touches them.
-/

namespace Nova

abbrev Instruction := Nat

def U32LIM : Nat := 4294967296
def U64LIM : Nat := 18446744073709551616

/-! ## Instruction codec (src/instruction.rs) -/

namespace InstructionBuilder

/-- add_opcode: instruction += opcode << 26 (u32 wrapping). -/
def addOpcode (i op : Nat) : Nat := (i + op * 67108864) % U32LIM

/-- add_destination_register: instruction += destination << 22. -/
def addDestinationRegister (i d : Nat) : Nat := (i + d * 4194304) % U32LIM

/-- add_source_register_1: instruction += source << 18. -/
def addSourceRegister1 (i s : Nat) : Nat := (i + s * 262144) % U32LIM

/-- add_source_register_2: instruction += source. -/
def addSourceRegister2 (i s : Nat) : Nat := (i + s) % U32LIM

/-- add_address_small: instruction += address. -/
def addAddressSmall (i a : Nat) : Nat := (i + a) % U32LIM

/-- clear_address_small: instruction = (instruction >> 16) << 16. -/
def clearAddressSmall (i : Nat) : Nat := (i / 65536) * 65536

end InstructionBuilder

namespace instruction_decoder

/-- split_u64: (value >> 32, value as u32). -/
def splitU64 (v : Nat) : Nat × Nat := (v / U32LIM, v % U32LIM)

/-- merge_u32s: (first << 32) + second. -/
def mergeU32s (a b : Nat) : Nat := a * U32LIM + b

/-- decode_opcode: instruction >> 26 (on a u32 value). -/
def decodeOpcode (i : Nat) : Nat := i / 67108864

/-- decode_destination_register: (instruction >> 22) & 0xF. -/
def decodeDestinationRegister (i : Nat) : Nat := (i / 4194304) % 16

/-- decode_source_register_1: (instruction >> 18) & 0xF. -/
def decodeSourceRegister1 (i : Nat) : Nat := (i / 262144) % 16

/-- decode_source_register_2: instruction & 0xF. -/
def decodeSourceRegister2 (i : Nat) : Nat := i % 16

/-- decode_immutable_address_small: instruction & 0xffff. -/
def decodeImmutableAddressSmall (i : Nat) : Nat := i % 65536

end instruction_decoder

/-! ## Opcodes (src/bytecode.rs); discriminants follow declaration order. -/

inductive OpCode where
  | noInstruction
  | move
  | loadK
  | loadNil
  | loadBool
  | loadInt32
  | loadInt64
  | loadFloat32
  | loadFloat64
  | loadReturn
  | clearReturn
  | this
  | add
  | sub
  | mul
  | div
  | mod
  | pow
  | neg
  | not
  | and
  | or
  | less
  | lessEqual
  | equal
  | jumpFalse
  | jump
  | defineGlobalIndirect
  | storeGlobalIndirect
  | loadGlobalIndirect
  | loadGlobal
  | allocateLocal
  | deallocateLocal
  | storeLocal
  | loadLocal
  | print
  | invoke
  | whileOp
  | loopOp
  | breakOp
  | newFrame
  | returnNone
  | returnVal
  | halt
  deriving DecidableEq, Repr

namespace OpCode

/-- OpCode::to_u32 (the enum discriminant). -/
def toU32 : OpCode → Nat
  | .noInstruction => 0
  | .move => 1
  | .loadK => 2
  | .loadNil => 3
  | .loadBool => 4
  | .loadInt32 => 5
  | .loadInt64 => 6
  | .loadFloat32 => 7
  | .loadFloat64 => 8
  | .loadReturn => 9
  | .clearReturn => 10
  | .this => 11
  | .add => 12
  | .sub => 13
  | .mul => 14
  | .div => 15
  | .mod => 16
  | .pow => 17
  | .neg => 18
  | .not => 19
  | .and => 20
  | .or => 21
  | .less => 22
  | .lessEqual => 23
  | .equal => 24
  | .jumpFalse => 25
  | .jump => 26
  | .defineGlobalIndirect => 27
  | .storeGlobalIndirect => 28
  | .loadGlobalIndirect => 29
  | .loadGlobal => 30
  | .allocateLocal => 31
  | .deallocateLocal => 32
  | .storeLocal => 33
  | .loadLocal => 34
  | .print => 35
  | .invoke => 36
  | .whileOp => 37
  | .loopOp => 38
  | .breakOp => 39
  | .newFrame => 40
  | .returnNone => 41
  | .returnVal => 42
  | .halt => 43

/-- Rust Debug formatting of an OpCode (the variant name). -/
def debugName : OpCode → String
  | .noInstruction => "NoInstruction"
  | .move => "Move"
  | .loadK => "LoadK"
  | .loadNil => "LoadNil"
  | .loadBool => "LoadBool"
  | .loadInt32 => "LoadInt32"
  | .loadInt64 => "LoadInt64"
  | .loadFloat32 => "LoadFloat32"
  | .loadFloat64 => "LoadFloat64"
  | .loadReturn => "LoadReturn"
  | .clearReturn => "ClearReturn"
  | .this => "This"
  | .add => "Add"
  | .sub => "Sub"
  | .mul => "Mul"
  | .div => "Div"
  | .mod => "Mod"
  | .pow => "Pow"
  | .neg => "Neg"
  | .not => "Not"
  | .and => "And"
  | .or => "Or"
  | .less => "Less"
  | .lessEqual => "LessEqual"
  | .equal => "Equal"
  | .jumpFalse => "JumpFalse"
  | .jump => "Jump"
  | .defineGlobalIndirect => "DefineGlobalIndirect"
  | .storeGlobalIndirect => "StoreGlobalIndirect"
  | .loadGlobalIndirect => "LoadGlobalIndirect"
  | .loadGlobal => "LoadGlobal"
  | .allocateLocal => "AllocateLocal"
  | .deallocateLocal => "DeallocateLocal"
  | .storeLocal => "StoreLocal"
  | .loadLocal => "LoadLocal"
  | .print => "Print"
  | .invoke => "Invoke"
  | .whileOp => "While"
  | .loopOp => "Loop"
  | .breakOp => "Break"
  | .newFrame => "NewFrame"
  | .returnNone => "ReturnNone"
  | .returnVal => "ReturnVal"
  | .halt => "Halt"

end OpCode

/-- BYTECODE_LOOKUP_TABLE (44 entries, src/bytecode.rs). -/
def BYTECODE_LOOKUP_TABLE : List OpCode :=
  [.noInstruction, .move, .loadK, .loadNil, .loadBool, .loadInt32, .loadInt64,
   .loadFloat32, .loadFloat64, .loadReturn, .clearReturn, .this, .add, .sub,
   .mul, .div, .mod, .pow, .neg, .not, .and, .or, .less, .lessEqual, .equal,
   .jumpFalse, .jump, .defineGlobalIndirect, .storeGlobalIndirect,
   .loadGlobalIndirect, .loadGlobal, .allocateLocal, .deallocateLocal,
   .storeLocal, .loadLocal, .print, .invoke, .whileOp, .loopOp, .breakOp,
   .newFrame, .returnNone, .returnVal, .halt]

/-! ## Convenience builders (src/instruction.rs, the new_... constructors). -/

namespace InstructionBuilder

def newBinaryOpInstruction (op : OpCode) (destination source1 source2 : Nat) :
    Nat :=
  addSourceRegister2 (addSourceRegister1 (addDestinationRegister
    (addOpcode 0 op.toU32) destination) source1) source2

def newComparisonInstruction (op : OpCode) (destination source1 source2 : Nat) :
    Nat :=
  addSourceRegister2 (addSourceRegister1 (addDestinationRegister
    (addOpcode 0 op.toU32) destination) source1) source2

def newNotInstruction (source1 : Nat) : Nat :=
  addSourceRegister1 (addDestinationRegister
    (addOpcode 0 OpCode.not.toU32) source1) source1

def newJumpInstruction (offset : Nat) (forward : Bool) : Nat :=
  addAddressSmall (addDestinationRegister (addOpcode 0 OpCode.jump.toU32)
    (if forward then 1 else 0)) offset

def newJumpFalseInstruction (source1 : Nat) : Nat :=
  addSourceRegister1 (addOpcode 0 OpCode.jumpFalse.toU32) source1

def newLoadConstantInstruction (destination constantIndex : Nat) : Nat :=
  addAddressSmall (addDestinationRegister
    (addOpcode 0 OpCode.loadK.toU32) destination) constantIndex

def newInvokeInstruction (parameterStart parameterNumber registerIndex : Nat) :
    Nat :=
  addSourceRegister2 (addSourceRegister1 (addDestinationRegister
    (addOpcode 0 OpCode.invoke.toU32) parameterStart) parameterNumber)
    registerIndex

def newLoadBool (destination value : Nat) : Nat :=
  addAddressSmall (addDestinationRegister
    (addOpcode 0 OpCode.loadBool.toU32) destination) value

def newDefineGlobalIndirect (immutableAddress : Nat) : Nat :=
  addAddressSmall (addOpcode 0 OpCode.defineGlobalIndirect.toU32)
    immutableAddress

def newStoreGlobalIndirect (source1 immutableAddress : Nat) : Nat :=
  addAddressSmall (addSourceRegister1
    (addOpcode 0 OpCode.storeGlobalIndirect.toU32) source1) immutableAddress

def newLoadGlobalIndirect (destination address : Nat) : Nat :=
  addAddressSmall (addDestinationRegister
    (addOpcode 0 OpCode.loadGlobalIndirect.toU32) destination) address

def newAllocateLocal (number : Nat) : Nat :=
  addAddressSmall (addOpcode 0 OpCode.allocateLocal.toU32) number

def newDeallocateLocal (number : Nat) : Nat :=
  addAddressSmall (addOpcode 0 OpCode.deallocateLocal.toU32) number

def newStoreLocal (source1 destinationVariable : Nat) : Nat :=
  addAddressSmall (addSourceRegister1
    (addOpcode 0 OpCode.storeLocal.toU32) source1) destinationVariable

def newLoadLocal (destination sourceVariable : Nat) : Nat :=
  addAddressSmall (addDestinationRegister
    (addOpcode 0 OpCode.loadLocal.toU32) destination) sourceVariable

def newLoadFloat32Instruction (destination : Nat) : Nat :=
  addDestinationRegister (addOpcode 0 OpCode.loadFloat32.toU32) destination

def newMoveInstruction (destination source : Nat) : Nat :=
  addSourceRegister1 (addDestinationRegister
    (addOpcode 0 OpCode.move.toU32) destination) source

def newPrintInstruction (source : Nat) (newline : Bool) : Nat :=
  addSourceRegister1 (addDestinationRegister
    (addOpcode 0 OpCode.print.toU32) (if newline then 1 else 0)) source

def newReturnNoneInstruction : Nat := addOpcode 0 OpCode.returnNone.toU32

def newReturnValue (source : Nat) : Nat :=
  addSourceRegister1 (addOpcode 0 OpCode.returnVal.toU32) source

def newHaltInstruction : Nat := addOpcode 0 OpCode.halt.toU32

end InstructionBuilder

/-! ## Registers (src/register.rs, src/object.rs).

machine.rs matches register kinds over exactly these six variants
(is_truthy, print, package_register_into_nova_object), so the register
value kind of the machine.rs revision is the six-variant one. -/

inductive RegisterValueKind where
  | none
  | int64
  | float64
  | bool
  | memAddress
  | immAddress
  deriving DecidableEq, Repr

/-- Rust Debug formatting of a RegisterValueKind (the variant name). -/
def RegisterValueKind.debugName : RegisterValueKind → String
  | .none => "None"
  | .int64 => "Int64"
  | .float64 => "Float64"
  | .bool => "Bool"
  | .memAddress => "MemAddress"
  | .immAddress => "ImmAddress"

/-- A tagged register value; `value` is the raw 64-bit payload. -/
structure Register where
  kind : RegisterValueKind
  value : Nat
  deriving DecidableEq, Repr

def Register.empty : Register := ⟨RegisterValueKind.none, 0⟩

/- RegisterID numbering: R0..R10 = 0..10, R15 = 16, then the named slots.
The register file has RMax + 1 = 23 slots. -/
namespace RegisterID
def R0 : Nat := 0
def R9 : Nat := 9
def R15 : Nat := 16
def RLO : Nat := 17
def RERR : Nat := 18
def RPC : Nat := 19
def RCND : Nat := 20
def RRTN : Nat := 21
def RMax : Nat := 22
end RegisterID

def NUM_REGISTERS : Nat := RegisterID.RMax + 1

/-! ## Objects (src/object.rs) -/

structure NovaFunction where
  name : String
  address : Nat
  arity : Nat
  isMethod : Bool
  numberOfLocals : Nat
  deriving DecidableEq, Repr

/-- NovaObject.  Float64 carries its IEEE-754 bit pattern.  NativeFunction
carries only its name: the Rust variant also holds a host function pointer,
which is external to the core and not modelled (spec section 4.6). -/
inductive NovaObject where
  | none
  | int64 (v : Int)
  | float64 (bits : Nat)
  | novaFunction (f : NovaFunction)
  | nativeFunction (name : String)
  | string (s : String)
  deriving DecidableEq, Repr

def NovaObject.isCallable : NovaObject → Bool
  | .novaFunction _ => true
  | .nativeFunction _ => true
  | _ => false

/-! ## Frames (src/frame.rs) -/

structure Frame where
  returnAddress : Nat
  localOffset : Nat
  isMain : Bool
  registers : List Register
  deriving DecidableEq, Repr

def Frame.main : Frame :=
  ⟨0, 0, true, List.replicate NUM_REGISTERS Register.empty⟩

/-! ## Programs (src/program.rs); line_definitions omitted (no claim uses
backtraces). -/

structure Program where
  instructions : List Nat
  immutables : List NovaObject
  deriving DecidableEq, Repr

/-! ## VM state (src/machine.rs).

`frames` and `locals` model Rust Vec with push/pop at the END of the list
(the last element is the top of the stack), exactly as Vec does.
`identifiers` models the name-to-global-slot hash map as an association
list with insert-or-replace. -/

structure VMState where
  instructions : List Nat
  immutables : List NovaObject
  registers : List Register
  running : Bool
  memory : List NovaObject
  frames : List Frame
  locals : List Register
  globals : List Register
  identifiers : List (String × Nat)
  deriving DecidableEq, Repr

def VMState.new : VMState :=
  { instructions := []
    immutables := []
    registers := List.replicate NUM_REGISTERS Register.empty
    running := false
    memory := []
    frames := [Frame.main]
    locals := []
    globals := []
    identifiers := [] }

/-- HashMap::insert (replace an existing binding, else append). -/
def mapInsert (m : List (String × Nat)) (k : String) (v : Nat) :
    List (String × Nat) :=
  if m.any (fun p => p.1 = k) then
    m.map (fun p => if p.1 = k then (k, v) else p)
  else m ++ [(k, v)]

/-- HashMap::get. -/
def mapGet (m : List (String × Nat)) (k : String) : Option Nat :=
  (m.find? (fun p => p.1 = k)).map (·.2)

/-! ## Exact bit-level IEEE-754 double helpers.

A double is carried as its 64-bit pattern (a Nat below 2^64).  Only
operations that are exact integer arithmetic on the pattern are defined:
sign flip, ordering, equality, truncating cast to i32 and conversion from
integers (round to nearest, ties to even). -/

def f64SignBit (b : Nat) : Nat := b / 9223372036854775808

def f64ExpField (b : Nat) : Nat := (b / 4503599627370496) % 2048

def f64MantissaField (b : Nat) : Nat := b % 4503599627370496

def f64IsNaN (b : Nat) : Bool := f64ExpField b = 2047 && f64MantissaField b ≠ 0

def f64IsZero (b : Nat) : Bool := f64ExpField b = 0 && f64MantissaField b = 0

/-- Unary minus on f64 flips exactly the sign bit. -/
def f64NegBits (b : Nat) : Nat :=
  if b < 9223372036854775808 then b + 9223372036854775808
  else b - 9223372036854775808

/-- The integer part (truncated toward zero) of the magnitude of a finite
double given by its bits; for an infinity this yields a value at least
2^31 so that the saturating cast below behaves correctly. -/
def f64TruncMagnitude (b : Nat) : Nat :=
  let e := f64ExpField b
  let m := f64MantissaField b
  let significand := if e = 0 then m else 4503599627370496 + m
  let eEff := if e = 0 then 1 else e
  if eEff ≥ 1075 then significand * 2 ^ (eEff - 1075)
  else significand / 2 ^ (1075 - eEff)

/-- Rust `f as i32` on a double: NaN maps to 0, otherwise truncate toward
zero and saturate to the i32 range. -/
def f64BitsToI32 (b : Nat) : Int :=
  if f64IsNaN b then 0
  else
    let t := f64TruncMagnitude b
    if f64SignBit b = 0 then
      if t ≥ 2147483648 then 2147483647 else (t : Int)
    else
      if t ≥ 2147483648 then -2147483648 else -(t : Int)

/-- Position of the most significant bit of n (floor of log2) for n below
2^64, computed by a bounded scan so that the kernel can evaluate it. -/
def msbPosition (n : Nat) : Nat :=
  (List.range 64).foldl (fun acc k => if 2 ^ k ≤ n then k else acc) 0

/-- Rust `i as f64` for an i64: round to nearest, ties to even (exact for
magnitudes below 2^53). -/
def intToF64Bits (v : Int) : Nat :=
  if v = 0 then 0
  else
    let s := if v < 0 then 9223372036854775808 else 0
    let n := v.natAbs
    let k := msbPosition n
    if k ≤ 52 then
      s + (1023 + k) * 4503599627370496 + (n * 2 ^ (52 - k) - 4503599627370496)
    else
      let shift := k - 52
      let q := n / 2 ^ shift
      let r := n % 2 ^ shift
      let half := 2 ^ (shift - 1)
      let q2 := if r > half ∨ (r = half ∧ q % 2 = 1) then q + 1 else q
      if q2 = 9007199254740992 then
        s + (1024 + k) * 4503599627370496
      else
        s + (1023 + k) * 4503599627370496 + (q2 - 4503599627370496)

/-- IEEE `<` on doubles by bits: false if either is NaN; +0 and -0 are
equal; otherwise sign-magnitude ordering. -/
def f64Lt (a b : Nat) : Bool :=
  if f64IsNaN a || f64IsNaN b then false
  else if f64IsZero a && f64IsZero b then false
  else if f64SignBit a = 0 && f64SignBit b = 0 then decide (a < b)
  else if f64SignBit a = 1 && f64SignBit b = 1 then decide (b < a)
  else f64SignBit a = 1

/-- IEEE `==` on doubles by bits (NaN is not equal to anything, the two
zeros are equal). -/
def f64Eq (a b : Nat) : Bool :=
  if f64IsNaN a || f64IsNaN b then false
  else a = b || (f64IsZero a && f64IsZero b)

def f64Le (a b : Nat) : Bool := f64Lt a b || f64Eq a b

/-- Rust `f32 as f64` (exact widening) on bit patterns. -/
def f32BitsToF64Bits (b : Nat) : Nat :=
  let s := b / 2147483648
  let e := (b / 8388608) % 256
  let m := b % 8388608
  if e = 255 then
    s * 9223372036854775808 + 2047 * 4503599627370496 + m * 536870912
  else if e = 0 then
    if m = 0 then s * 9223372036854775808
    else
      let k := msbPosition m
      s * 9223372036854775808 + (k + 874) * 4503599627370496 +
        (m - 2 ^ k) * 2 ^ (52 - k)
  else
    s * 9223372036854775808 + (e + 896) * 4503599627370496 + m * 536870912

/-! ## u64 / i64 reinterpretation -/

def u64ToI64 (v : Nat) : Int :=
  if v < 9223372036854775808 then (v : Int) else (v : Int) - 18446744073709551616

def i64ToU64 (v : Int) : Nat := (v % 18446744073709551616).toNat

/-- Rust `n as i32` applied to an i64 value (take low 32 bits, reinterpret
as a signed two-complement value). -/
def toI32Wrap (v : Int) : Int :=
  let b := (v % 4294967296).toNat
  if b < 2147483648 then (b : Int) else (b : Int) - 4294967296

/-- Rust `n as u32` reinterpretation of an i32 value. -/
def toU32Bits (v : Int) : Nat := (v % 4294967296).toNat

/-- Rust `w as i32` reinterpretation of a u32 word. -/
def u32ToI32 (w : Nat) : Int :=
  if w < 2147483648 then (w : Int) else (w : Int) - 4294967296

/-! ## NovaObject comparison (Rust derived PartialEq / PartialOrd).

Derived PartialOrd orders by variant declaration order first, then by the
fields of equal variants lexicographically.  Doubles compare by IEEE
semantics (so the comparison is partial: NaN compares to nothing).  For
NativeFunction the Rust code also compares the host function pointer; only
the name is modelled. -/

def NovaObject.discriminant : NovaObject → Nat
  | .none => 0
  | .int64 _ => 1
  | .float64 _ => 2
  | .novaFunction _ => 3
  | .nativeFunction _ => 4
  | .string _ => 5

def boolCmp : Bool → Bool → Ordering
  | false, false => .eq
  | false, true => .lt
  | true, false => .gt
  | true, true => .eq

def novaFunctionCmp (f g : NovaFunction) : Ordering :=
  (compare f.name g.name).then ((compare f.address g.address).then
    ((compare f.arity g.arity).then ((boolCmp f.isMethod g.isMethod).then
      (compare f.numberOfLocals g.numberOfLocals))))

def f64PartialCmp (a b : Nat) : Option Ordering :=
  if f64IsNaN a || f64IsNaN b then Option.none
  else if f64Eq a b then some Ordering.eq
  else if f64Lt a b then some Ordering.lt
  else some Ordering.gt

def novaObjectPartialCmp (a b : NovaObject) : Option Ordering :=
  match a, b with
  | .none, .none => some Ordering.eq
  | .int64 x, .int64 y => some (compare x y)
  | .float64 x, .float64 y => f64PartialCmp x y
  | .novaFunction f, .novaFunction g => some (novaFunctionCmp f g)
  | .nativeFunction m, .nativeFunction n => some (compare m n)
  | .string s, .string t => some (compare s t)
  | _, _ => some (compare a.discriminant b.discriminant)

def novaObjectLt (a b : NovaObject) : Bool :=
  novaObjectPartialCmp a b = some Ordering.lt

def novaObjectLe (a b : NovaObject) : Bool :=
  novaObjectPartialCmp a b = some Ordering.lt ||
    novaObjectPartialCmp a b = some Ordering.eq

/-- Rust derived PartialEq on NovaObject (doubles by IEEE equality). -/
def novaObjectEq (a b : NovaObject) : Bool :=
  match a, b with
  | .none, .none => true
  | .int64 x, .int64 y => x = y
  | .float64 x, .float64 y => f64Eq x y
  | .novaFunction f, .novaFunction g => f = g
  | .nativeFunction m, .nativeFunction n => m = n
  | .string s, .string t => s = t
  | _, _ => false

/-- Rust Debug formatting of a NovaObject, where computable; decimal
formatting of doubles is not modelled (escaping of special characters
inside strings is not reproduced; no claim depends on it). -/
def novaObjectDebug : NovaObject → Option String
  | .none => some ("None")
  | .int64 v => some ("Int64(" ++ toString v ++ ")")
  | .float64 _ => Option.none
  | .novaFunction f =>
      some ("NovaFunction(NovaFunction \x7b name: \"" ++ f.name ++
        "\", address: " ++ toString f.address ++ ", arity: " ++
        toString f.arity ++ ", is_method: " ++
        (if f.isMethod then "true" else "false") ++ ", number_of_locals: " ++
        toString f.numberOfLocals ++ " \x7d)")
  | .nativeFunction _ => Option.none
  | .string s => some ("String(\"" ++ s ++ "\")")

/-! ## Virtual machine operations (src/machine.rs).

Every function below is a direct translation of the impl block of
VirtualMachine.  Option results model Rust panics (Vec indexing out of
bounds, todo!(), division overflow) and undefined behaviour
(get_unchecked out of bounds); `none` for those and for the
explicitly-unmodelled branches (IEEE double arithmetic, float decimal
formatting, host native-function calls). -/

def PC_START : Nat := 0

namespace VMState

/-- get_register (registers are always indexed in bounds by the decoders,
so the default value of getD is never produced for well-formed states). -/
def getRegister (s : VMState) (registerId : Nat) : Register :=
  s.registers.getD registerId Register.empty

def setValueInRegister (s : VMState) (registerId : Nat) (value : Register) :
    VMState :=
  { s with registers := s.registers.set registerId value }

def clearRegister (s : VMState) (registerId : Nat) : VMState :=
  s.setValueInRegister registerId Register.empty

def checkError (s : VMState) : Bool :=
  (s.getRegister RegisterID.RERR).kind = RegisterValueKind.memAddress

def clearError (s : VMState) : VMState :=
  s.setValueInRegister RegisterID.RERR Register.empty

/-- store_object_in_memory: push and return the address of the pushed
object. -/
def storeObjectInMemory (s : VMState) (object : NovaObject) : VMState × Nat :=
  ({ s with memory := s.memory ++ [object] }, s.memory.length)

def loadMemoryAddressToRegister (s : VMState) (destination address : Nat) :
    VMState :=
  s.setValueInRegister destination ⟨RegisterValueKind.memAddress, address⟩

def emitErrorWithMessage (s : VMState) (message : String) : VMState :=
  let p := s.storeObjectInMemory (NovaObject.string message)
  p.1.loadMemoryAddressToRegister RegisterID.RERR p.2

/-- load_object_from_memory uses get_unchecked: out of bounds is UB. -/
def loadObjectFromMemory (s : VMState) (address : Nat) : Option NovaObject :=
  s.memory.get? address

def allocateGlobal (s : VMState) : VMState × Nat :=
  ({ s with globals := s.globals ++ [Register.empty] }, s.globals.length)

def createGlobal (s : VMState) (name : String) (globalLocation : Nat) :
    VMState :=
  { s with identifiers := mapInsert s.identifiers name globalLocation }

/-- set_global_value panics when the slot is out of bounds and reaches the
todo!() in free_memory_location when the current value is a MemAddress. -/
def setGlobalValue (s : VMState) (address : Nat) (newValue : Register) :
    Option VMState :=
  match s.globals.get? address with
  | Option.none => Option.none
  | some currentValue =>
    if currentValue.kind = RegisterValueKind.memAddress then Option.none
    else some { s with globals := s.globals.set address newValue }

def loadGlobalValue (s : VMState) (destination globalAddress : Nat) :
    Option VMState :=
  match s.globals.get? globalAddress with
  | Option.none => Option.none
  | some value => some { s with registers := s.registers.set destination value }

/-- load_callable: bind a callable object to a fresh global slot via a
fresh memory cell. -/
def loadCallable (s : VMState) (callable : NovaObject) : Option VMState :=
  let p := s.allocateGlobal
  let name := match callable with
    | NovaObject.novaFunction f => f.name
    | NovaObject.nativeFunction n => n
    | _ => "None"
  let s2 := p.1.createGlobal name p.2
  let q := s2.storeObjectInMemory callable
  q.1.setGlobalValue p.2 ⟨RegisterValueKind.memAddress, q.2⟩

end VMState

/-- offset_immutable_address: rewrite the low 16 bits of words whose high
6 bits decode to LoadK / DefineGlobalIndirect / LoadGlobalIndirect /
StoreGlobalIndirect. -/
def offsetImmutableAddress (instruction offset : Nat) : Nat :=
  let opcode := instruction_decoder.decodeOpcode instruction
  if opcode = OpCode.loadK.toU32 ∨ opcode = OpCode.defineGlobalIndirect.toU32 ∨
      opcode = OpCode.loadGlobalIndirect.toU32 ∨
      opcode = OpCode.storeGlobalIndirect.toU32 then
    let oldAddress := instruction_decoder.decodeImmutableAddressSmall instruction
    let newAddress := (oldAddress + offset) % U32LIM
    InstructionBuilder.addAddressSmall
      (InstructionBuilder.clearAddressSmall instruction) newAddress
  else instruction

namespace VMState

/-- load_program: append instructions with offset fix-up, then append the
immutables, registering callables as globals. -/
def loadProgram (s : VMState) (program : Program) : Option VMState :=
  let immutableOffset := s.immutables.length % U32LIM
  let s1 := { s with instructions := s.instructions ++
    program.instructions.map (fun i => offsetImmutableAddress i immutableOffset) }
  program.immutables.foldlM (fun st imm =>
    (if imm.isCallable then st.loadCallable imm else some st).map
      (fun st2 => { st2 with immutables := st2.immutables ++ [imm] })) s1

/-- Clear the temporary value registers (indices 1 through R9 - 1 = 8,
exactly the source loop 1..RegisterID::R9). -/
def clearRegisters (s : VMState) : VMState :=
  let newRegisters :=
    (List.range 8).foldl (fun r i => r.set (i + 1) Register.empty) s.registers
  { s with registers := newRegisters }

def setLocalOffset (s : VMState) : VMState :=
  let r := s.getRegister RegisterID.RLO
  s.setValueInRegister RegisterID.RLO ⟨r.kind, s.locals.length⟩

def allocateLocalVariables (s : VMState) (numberOfLocals : Nat) : VMState :=
  { s with locals := s.locals ++ List.replicate numberOfLocals Register.empty }

/-- The while loop of deallocate_local_variables: pop once per count;
Vec::pop on an empty vector is a no-op. -/
def popLocalsN : List Register → Nat → List Register
  | l, 0 => l
  | l, n + 1 => popLocalsN l.dropLast n

def deallocateLocalVariables (s : VMState) (numberOfLocals : Nat) : VMState :=
  { s with locals := popLocalsN s.locals numberOfLocals }

/-- new_frame: save the register file, clear temporaries, point RLO at the
top of the locals stack, allocate the locals and record their count in
RMax. Returns the saved frame (the source returns the clone it pushed). -/
def newFrame (s : VMState) (numLocals : Nat) : VMState × Frame :=
  let returnAddress := (s.getRegister RegisterID.RPC).value
  let localOffset := (s.getRegister RegisterID.RLO).value
  let frame : Frame := ⟨returnAddress, localOffset, false, s.registers⟩
  let s1 := { s with frames := s.frames ++ [frame] }
  let s2 := s1.clearRegisters
  let s3 := s2.setLocalOffset
  let s4 := s3.allocateLocalVariables numLocals
  (s4.setValueInRegister RegisterID.RMax
    ⟨RegisterValueKind.memAddress, numLocals⟩, frame)

/-- drop_frame: drain R[RMax].value locals (the count passes through an
`as u32` cast), pop the top frame; halt if it was the main frame, else
restore its registers and re-deliver the return value through RRTN. -/
def dropFrame (s : VMState) : VMState :=
  let returnValue := s.getRegister RegisterID.RRTN
  let numLocals := (s.getRegister RegisterID.RMax).value % U32LIM
  let s1 := s.deallocateLocalVariables numLocals
  match s1.frames.getLast? with
  | Option.none => { s1 with running := false }
  | some frame =>
    let s2 := { s1 with frames := s1.frames.dropLast }
    if frame.isMain then { s2 with running := false }
    else ({ s2 with registers := frame.registers }).setValueInRegister
      RegisterID.RRTN returnValue

def returnNoneOp (s : VMState) : VMState :=
  (s.setValueInRegister RegisterID.RRTN Register.empty).dropFrame

def returnValOp (s : VMState) (instruction : Nat) : VMState :=
  let valueSource := instruction_decoder.decodeSourceRegister1 instruction
  let valueRegister := s.getRegister valueSource
  (s.setValueInRegister RegisterID.RRTN valueRegister).dropFrame

def loadReturnOp (s : VMState) (instruction : Nat) : VMState :=
  let destination := instruction_decoder.decodeDestinationRegister instruction
  s.setValueInRegister destination (s.getRegister RegisterID.RRTN)

def moveRegister (s : VMState) (instruction : Nat) : VMState :=
  let destination := instruction_decoder.decodeDestinationRegister instruction
  let source := instruction_decoder.decodeSourceRegister1 instruction
  s.setValueInRegister destination (s.getRegister source)

def isTruthy (register : Register) : Bool :=
  match register.kind with
  | RegisterValueKind.none => false
  | RegisterValueKind.int64 => true
  | RegisterValueKind.float64 => true
  | RegisterValueKind.bool => register.value = 1
  | RegisterValueKind.memAddress => true
  | RegisterValueKind.immAddress => true

/-- Not: flip the value field by truthiness, keep the kind field. -/
def notOp (s : VMState) (instruction : Nat) : VMState :=
  let source := instruction_decoder.decodeSourceRegister1 instruction
  let register := s.getRegister source
  let isTrue := isTruthy register
  s.setValueInRegister source ⟨register.kind, if isTrue then 0 else 1⟩

/-- compare_registers.  The Bool result is the comparison outcome; the
state changes only on the error paths (which append the error string).
Memory / immutables accesses may be out of bounds (Option). -/
def compareRegisters (s : VMState) (op : OpCode) (first second : Register) :
    Option (VMState × Bool) :=
  match op with
  | OpCode.less =>
    if first.kind = RegisterValueKind.float64 ∧
        second.kind = RegisterValueKind.float64 then
      some (s, f64Lt first.value second.value)
    else if first.kind = RegisterValueKind.int64 ∧
        second.kind = RegisterValueKind.int64 then
      some (s, decide (u64ToI64 first.value < u64ToI64 second.value))
    else if first.kind = RegisterValueKind.int64 ∧
        second.kind = RegisterValueKind.float64 then
      some (s, f64Lt (intToF64Bits (u64ToI64 first.value)) second.value)
    else if first.kind = RegisterValueKind.float64 ∧
        second.kind = RegisterValueKind.int64 then
      some (s, f64Lt first.value (intToF64Bits (u64ToI64 second.value)))
    else if first.kind = RegisterValueKind.memAddress ∧
        second.kind = RegisterValueKind.memAddress then
      match s.loadObjectFromMemory first.value,
          s.loadObjectFromMemory second.value with
      | some a, some b => some (s, novaObjectLt a b)
      | _, _ => Option.none
    else if first.kind = RegisterValueKind.immAddress ∧
        second.kind = RegisterValueKind.immAddress then
      match s.immutables.get? first.value, s.immutables.get? second.value with
      | some a, some b => some (s, novaObjectLt a b)
      | _, _ => Option.none
    else if first.kind = RegisterValueKind.immAddress ∧
        second.kind = RegisterValueKind.memAddress then
      match s.immutables.get? first.value,
          s.loadObjectFromMemory second.value with
      | some a, some b => some (s, novaObjectLt a b)
      | _, _ => Option.none
    else if first.kind = RegisterValueKind.memAddress ∧
        second.kind = RegisterValueKind.immAddress then
      match s.loadObjectFromMemory first.value,
          s.immutables.get? second.value with
      | some a, some b => some (s, novaObjectLt a b)
      | _, _ => Option.none
    else
      some (s.emitErrorWithMessage ("cannot compare " ++
        first.kind.debugName ++ " to " ++ second.kind.debugName), false)
  | OpCode.lessEqual =>
    if first.kind = RegisterValueKind.float64 ∧
        second.kind = RegisterValueKind.float64 then
      some (s, f64Le first.value second.value)
    else if first.kind = RegisterValueKind.int64 ∧
        second.kind = RegisterValueKind.int64 then
      some (s, decide (u64ToI64 first.value ≤ u64ToI64 second.value))
    else if first.kind = RegisterValueKind.int64 ∧
        second.kind = RegisterValueKind.float64 then
      some (s, f64Le (intToF64Bits (u64ToI64 first.value)) second.value)
    else if first.kind = RegisterValueKind.float64 ∧
        second.kind = RegisterValueKind.int64 then
      some (s, f64Le first.value (intToF64Bits (u64ToI64 second.value)))
    else if first.kind = RegisterValueKind.memAddress ∧
        second.kind = RegisterValueKind.memAddress then
      match s.loadObjectFromMemory first.value,
          s.loadObjectFromMemory second.value with
      | some a, some b => some (s, novaObjectLe a b)
      | _, _ => Option.none
    else if first.kind = RegisterValueKind.immAddress ∧
        second.kind = RegisterValueKind.memAddress then
      match s.immutables.get? first.value,
          s.loadObjectFromMemory second.value with
      | some a, some b => some (s, novaObjectLe a b)
      | _, _ => Option.none
    else if first.kind = RegisterValueKind.memAddress ∧
        second.kind = RegisterValueKind.immAddress then
      match s.loadObjectFromMemory first.value,
          s.immutables.get? second.value with
      | some a, some b => some (s, novaObjectLe a b)
      | _, _ => Option.none
    else
      some (s.emitErrorWithMessage ("cannot compare " ++
        first.kind.debugName ++ " to " ++ second.kind.debugName), false)
  | OpCode.equal =>
    if first.kind = RegisterValueKind.int64 ∧
        second.kind = RegisterValueKind.float64 then
      some (s, f64Eq (intToF64Bits (u64ToI64 first.value)) second.value)
    else if first.kind = RegisterValueKind.float64 ∧
        second.kind = RegisterValueKind.int64 then
      some (s, f64Eq first.value (intToF64Bits (u64ToI64 second.value)))
    else if first.kind ≠ second.kind then
      some (s, false)
    else if first.kind = RegisterValueKind.none ∧
        second.kind = RegisterValueKind.none then
      some (s, true)
    else if first.kind = RegisterValueKind.float64 ∧
        second.kind = RegisterValueKind.float64 then
      some (s, first.value = second.value)
    else if first.kind = RegisterValueKind.int64 ∧
        second.kind = RegisterValueKind.int64 then
      some (s, first.value = second.value)
    else if first.kind = RegisterValueKind.memAddress ∧
        second.kind = RegisterValueKind.memAddress then
      match s.loadObjectFromMemory first.value,
          s.loadObjectFromMemory second.value with
      | some a, some b => some (s, novaObjectEq a b)
      | _, _ => Option.none
    else if first.kind = RegisterValueKind.immAddress ∧
        second.kind = RegisterValueKind.memAddress then
      match s.immutables.get? first.value,
          s.loadObjectFromMemory second.value with
      | some a, some b => some (s, novaObjectEq a b)
      | _, _ => Option.none
    else if first.kind = RegisterValueKind.memAddress ∧
        second.kind = RegisterValueKind.immAddress then
      match s.loadObjectFromMemory first.value,
          s.immutables.get? second.value with
      | some a, some b => some (s, novaObjectEq a b)
      | _, _ => Option.none
    else
      some (s.emitErrorWithMessage ("cannot compare " ++
        first.kind.debugName ++ " to " ++ second.kind.debugName), false)
  | other =>
    some (s.emitErrorWithMessage ("Undefined comparison operator " ++
      toString other.toU32), false)

def lessOp (s : VMState) (instruction : Nat) : Option VMState :=
  let source1 := instruction_decoder.decodeSourceRegister1 instruction
  let source2 := instruction_decoder.decodeSourceRegister2 instruction
  let destination := instruction_decoder.decodeDestinationRegister instruction
  let register1 := s.getRegister source1
  let register2 := s.getRegister source2
  (s.compareRegisters OpCode.less register1 register2).map (fun p =>
    if p.1.checkError then p.1
    else p.1.setValueInRegister destination
      ⟨RegisterValueKind.bool, if p.2 then 1 else 0⟩)

def lessOrEqualOp (s : VMState) (instruction : Nat) : Option VMState :=
  let source1 := instruction_decoder.decodeSourceRegister1 instruction
  let source2 := instruction_decoder.decodeSourceRegister2 instruction
  let destination := instruction_decoder.decodeDestinationRegister instruction
  let register1 := s.getRegister source1
  let register2 := s.getRegister source2
  (s.compareRegisters OpCode.lessEqual register1 register2).map (fun p =>
    if p.1.checkError then p.1
    else p.1.setValueInRegister destination
      ⟨RegisterValueKind.bool, if p.2 then 1 else 0⟩)

def equalOp (s : VMState) (instruction : Nat) : Option VMState :=
  let source1 := instruction_decoder.decodeSourceRegister1 instruction
  let source2 := instruction_decoder.decodeSourceRegister2 instruction
  let destination := instruction_decoder.decodeDestinationRegister instruction
  let register1 := s.getRegister source1
  let register2 := s.getRegister source2
  (s.compareRegisters OpCode.equal register1 register2).map (fun p =>
    if p.1.checkError then p.1
    else p.1.setValueInRegister destination
      ⟨RegisterValueKind.bool, if p.2 then 1 else 0⟩)

/-- negate: in place, Float64 only (sign-bit flip); any other kind raises
the error of the source. -/
def negate (s : VMState) (instruction : Nat) : VMState :=
  let source := instruction_decoder.decodeSourceRegister1 instruction
  let destination := source
  let register := s.getRegister source
  if register.kind = RegisterValueKind.float64 then
    s.setValueInRegister destination
      ⟨RegisterValueKind.float64, f64NegBits register.value⟩
  else s.emitErrorWithMessage ("Cannot negate non float32 value")

/-- add.  The Int64 + Int64 branch wraps in signed 64-bit arithmetic.  The branches
needing IEEE double addition or decimal float formatting (the four
string-concatenation branches) are not modelled (none). -/
def addOp (s : VMState) (instruction : Nat) : Option VMState :=
  let destination := instruction_decoder.decodeDestinationRegister instruction
  let source1 := instruction_decoder.decodeSourceRegister1 instruction
  let source2 := instruction_decoder.decodeSourceRegister2 instruction
  let register1 := s.getRegister source1
  let register2 := s.getRegister source2
  match register1.kind, register2.kind with
  | RegisterValueKind.float64, RegisterValueKind.float64 => Option.none
  | RegisterValueKind.int64, RegisterValueKind.int64 =>
    some (s.setValueInRegister destination ⟨register1.kind,
      i64ToU64 (u64ToI64 register1.value + u64ToI64 register2.value)⟩)
  | RegisterValueKind.float64, RegisterValueKind.int64 => Option.none
  | RegisterValueKind.int64, RegisterValueKind.float64 => Option.none
  | RegisterValueKind.memAddress, RegisterValueKind.float64 => Option.none
  | RegisterValueKind.immAddress, RegisterValueKind.float64 => Option.none
  | RegisterValueKind.float64, RegisterValueKind.memAddress => Option.none
  | RegisterValueKind.float64, RegisterValueKind.immAddress => Option.none
  | _, _ =>
    some (s.emitErrorWithMessage ("cannot add " ++ register1.kind.debugName ++
      " to " ++ register2.kind.debugName))

/-- sub: Float64 branch unmodelled, Int64 branch wraps. -/
def subOp (s : VMState) (instruction : Nat) : Option VMState :=
  let destination := instruction_decoder.decodeDestinationRegister instruction
  let source1 := instruction_decoder.decodeSourceRegister1 instruction
  let source2 := instruction_decoder.decodeSourceRegister2 instruction
  let register1 := s.getRegister source1
  let register2 := s.getRegister source2
  match register1.kind, register2.kind with
  | RegisterValueKind.float64, RegisterValueKind.float64 => Option.none
  | RegisterValueKind.int64, RegisterValueKind.int64 =>
    some (s.setValueInRegister destination ⟨register1.kind,
      i64ToU64 (u64ToI64 register1.value - u64ToI64 register2.value)⟩)
  | _, _ =>
    some (s.emitErrorWithMessage ("cannot subtract " ++
      register1.kind.debugName ++ " by " ++ register2.kind.debugName))

/-- mul: Float64 branch unmodelled, Int64 branch wraps. -/
def mulOp (s : VMState) (instruction : Nat) : Option VMState :=
  let destination := instruction_decoder.decodeDestinationRegister instruction
  let source1 := instruction_decoder.decodeSourceRegister1 instruction
  let source2 := instruction_decoder.decodeSourceRegister2 instruction
  let register1 := s.getRegister source1
  let register2 := s.getRegister source2
  match register1.kind, register2.kind with
  | RegisterValueKind.float64, RegisterValueKind.float64 => Option.none
  | RegisterValueKind.int64, RegisterValueKind.int64 =>
    some (s.setValueInRegister destination ⟨register1.kind,
      i64ToU64 (u64ToI64 register1.value * u64ToI64 register2.value)⟩)
  | _, _ =>
    some (s.emitErrorWithMessage ("cannot multiply " ++
      register1.kind.debugName ++ " by " ++ register2.kind.debugName))

/-- div: both computing branches need IEEE double division (even the
Int64 branch divides via f64), so both are unmodelled. -/
def divOp (s : VMState) (instruction : Nat) : Option VMState :=
  let register1 := s.getRegister (instruction_decoder.decodeSourceRegister1 instruction)
  let register2 := s.getRegister (instruction_decoder.decodeSourceRegister2 instruction)
  match register1.kind, register2.kind with
  | RegisterValueKind.float64, RegisterValueKind.float64 => Option.none
  | RegisterValueKind.int64, RegisterValueKind.int64 => Option.none
  | _, _ =>
    some (s.emitErrorWithMessage ("cannot divide " ++
      register1.kind.debugName ++ " by " ++ register2.kind.debugName))

/-- pow: the Float64 branch needs powf (unmodelled). -/
def powOp (s : VMState) (instruction : Nat) : Option VMState :=
  let register1 := s.getRegister (instruction_decoder.decodeSourceRegister1 instruction)
  let register2 := s.getRegister (instruction_decoder.decodeSourceRegister2 instruction)
  match register1.kind, register2.kind with
  | RegisterValueKind.float64, RegisterValueKind.float64 => Option.none
  | _, _ =>
    some (s.emitErrorWithMessage ("cannot calculate power of " ++
      register1.kind.debugName ++ " to " ++ register2.kind.debugName))

/-- modulus.  Only a Float64 x Float64 branch exists in the source: both
operands are cast to i32 (Rust `as`), the i32 remainder is taken and cast
back to f64, stored with the kind of the first operand (Float64).  The i32
remainder panics for a zero divisor and for i32::MIN rem -1 (none).  Every
other kind pair raises the cannot-find-modulus error. -/
def modulusOp (s : VMState) (instruction : Nat) : Option VMState :=
  let destination := instruction_decoder.decodeDestinationRegister instruction
  let source1 := instruction_decoder.decodeSourceRegister1 instruction
  let source2 := instruction_decoder.decodeSourceRegister2 instruction
  let register1 := s.getRegister source1
  let register2 := s.getRegister source2
  match register1.kind, register2.kind with
  | RegisterValueKind.float64, RegisterValueKind.float64 =>
    let value1 := f64BitsToI32 register1.value
    let value2 := f64BitsToI32 register2.value
    if value2 = 0 ∨ (value1 = -2147483648 ∧ value2 = -1) then Option.none
    else
      some (s.setValueInRegister destination
        ⟨register1.kind, intToF64Bits (Int.tmod value1 value2)⟩)
  | _, _ =>
    some (s.emitErrorWithMessage ("cannot find modulus " ++
      register1.kind.debugName ++ " by " ++ register2.kind.debugName))

/-- peek_next_instruction (get_unchecked: out of range is UB). -/
def peekNextInstruction (s : VMState) : Option Nat :=
  s.instructions.get? (s.getRegister RegisterID.RPC).value

/-- get_next_instruction: peek, then increment only the value field of
RPC (u64 wrapping). -/
def getNextInstruction (s : VMState) : Option (Nat × VMState) :=
  match s.peekNextInstruction with
  | Option.none => Option.none
  | some instruction =>
    let r := s.getRegister RegisterID.RPC
    some (instruction,
      s.setValueInRegister RegisterID.RPC ⟨r.kind, (r.value + 1) % U64LIM⟩)

def loadConstantToRegister (s : VMState) (instruction : Nat) : VMState :=
  let destination := instruction_decoder.decodeDestinationRegister instruction
  let immutableAddress :=
    instruction_decoder.decodeImmutableAddressSmall instruction
  s.setValueInRegister destination
    ⟨RegisterValueKind.immAddress, immutableAddress⟩

def loadF64ToRegister (s : VMState) (destination bits : Nat) : VMState :=
  s.setValueInRegister destination ⟨RegisterValueKind.float64, bits⟩

def loadI64ToRegister (s : VMState) (destination : Nat) (number : Int) :
    VMState :=
  s.setValueInRegister destination ⟨RegisterValueKind.int64, i64ToU64 number⟩

/-- load_float32_to_register: one payload word, widened exactly to f64. -/
def loadFloat32ToRegister (s : VMState) (instruction : Nat) : Option VMState :=
  let destination := instruction_decoder.decodeDestinationRegister instruction
  (s.getNextInstruction).map (fun p =>
    p.2.loadF64ToRegister destination (f32BitsToF64Bits p.1))

/-- load_float64_to_register: two payload words, high first. -/
def loadFloat64ToRegister (s : VMState) (instruction : Nat) : Option VMState :=
  let destination := instruction_decoder.decodeDestinationRegister instruction
  match s.getNextInstruction with
  | Option.none => Option.none
  | some p =>
    match p.2.getNextInstruction with
    | Option.none => Option.none
    | some q =>
      some (q.2.loadF64ToRegister destination
        (instruction_decoder.mergeU32s p.1 q.1))

/-- load_int32_to_register: one payload word reinterpreted as i32 then
sign-extended to i64. -/
def loadInt32ToRegister (s : VMState) (instruction : Nat) : Option VMState :=
  let destination := instruction_decoder.decodeDestinationRegister instruction
  (s.getNextInstruction).map (fun p =>
    p.2.loadI64ToRegister destination (u32ToI32 p.1))

/-- load_int64_to_register: two payload words merged and reinterpreted as
i64. -/
def loadInt64ToRegister (s : VMState) (instruction : Nat) : Option VMState :=
  let destination := instruction_decoder.decodeDestinationRegister instruction
  match s.getNextInstruction with
  | Option.none => Option.none
  | some p =>
    match p.2.getNextInstruction with
    | Option.none => Option.none
    | some q =>
      some (q.2.loadI64ToRegister destination
        (u64ToI64 (instruction_decoder.mergeU32s p.1 q.1)))

def loadNilToRegister (s : VMState) (instruction : Nat) : VMState :=
  let destination := instruction_decoder.decodeDestinationRegister instruction
  s.setValueInRegister destination ⟨RegisterValueKind.none, 0⟩

/-- load_bool_to_register, exactly as the source writes it: the register
kind is Float64 and the value is the raw imm16. -/
def loadBoolToRegister (s : VMState) (instruction : Nat) : VMState :=
  let destination := instruction_decoder.decodeDestinationRegister instruction
  let boolean := instruction_decoder.decodeImmutableAddressSmall instruction
  s.setValueInRegister destination ⟨RegisterValueKind.float64, boolean⟩

/-- jump: dir = 0 is backward (RPC -= offset + 1), otherwise forward
(RPC += offset - 1), with u64 wrapping as in release-mode Rust. -/
def jumpOp (s : VMState) (instruction : Nat) : VMState :=
  let offset := instruction_decoder.decodeImmutableAddressSmall instruction
  let direction := instruction_decoder.decodeDestinationRegister instruction
  let r := s.getRegister RegisterID.RPC
  if direction = 0 then
    s.setValueInRegister RegisterID.RPC
      ⟨r.kind, (r.value + U64LIM - ((offset + 1) % U64LIM)) % U64LIM⟩
  else
    s.setValueInRegister RegisterID.RPC
      ⟨r.kind, (r.value + (offset + U64LIM - 1) % U64LIM) % U64LIM⟩

/-- jump_if_false: always consumes the following jump word, takes it only
when the tested register is falsy. -/
def jumpIfFalse (s : VMState) (instruction : Nat) : Option VMState :=
  let source := instruction_decoder.decodeSourceRegister1 instruction
  let register := s.getRegister source
  let truthy := isTruthy register
  (s.getNextInstruction).map (fun p =>
    if truthy then p.2 else p.2.jumpOp p.1)

def defineGlobalIndirect (s : VMState) (instruction : Nat) : Option VMState :=
  let index := instruction_decoder.decodeImmutableAddressSmall instruction
  match s.immutables.get? index with
  | Option.none => Option.none
  | some (NovaObject.string name) =>
    let p := s.allocateGlobal
    some (p.1.createGlobal name p.2)
  | some _ => some s

def storeGlobalIndirect (s : VMState) (instruction : Nat) : Option VMState :=
  let source := instruction_decoder.decodeSourceRegister1 instruction
  let index := instruction_decoder.decodeImmutableAddressSmall instruction
  match s.immutables.get? index with
  | Option.none => Option.none
  | some (NovaObject.string name) =>
    match mapGet s.identifiers name with
    | some address =>
      let register := s.getRegister source
      (s.setGlobalValue address register).map (fun s1 =>
        s1.clearRegister source)
    | Option.none =>
      some ((s.emitErrorWithMessage ("Cannot find global named: " ++
        name)).clearRegister source)
  | some other =>
    (novaObjectDebug other).map (fun d =>
      (s.emitErrorWithMessage ("Invalid global identifier: " ++
        d)).clearRegister source)

def loadGlobalIndirect (s : VMState) (instruction : Nat) : Option VMState :=
  let destination := instruction_decoder.decodeDestinationRegister instruction
  let index := instruction_decoder.decodeImmutableAddressSmall instruction
  match s.immutables.get? index with
  | Option.none => Option.none
  | some (NovaObject.string name) =>
    match mapGet s.identifiers name with
    | some address => s.loadGlobalValue destination address
    | Option.none =>
      some (s.emitErrorWithMessage ("Cannot find global named: " ++ name))
  | some other =>
    (novaObjectDebug other).map (fun d =>
      s.emitErrorWithMessage ("Invalid global identifier: " ++ d))

def allocateLocals (s : VMState) (instruction : Nat) : VMState :=
  let number := instruction_decoder.decodeImmutableAddressSmall instruction
  { s with locals := s.locals ++ List.replicate number Register.empty }

def deallocateLocals (s : VMState) (instruction : Nat) : VMState :=
  let number := instruction_decoder.decodeImmutableAddressSmall instruction
  { s with locals := popLocalsN s.locals number }

/-- store_local: the slot index is (imm16 + (RLO as u32)) with u32
wrapping; out-of-bounds indexing panics. -/
def storeLocal (s : VMState) (instruction : Nat) : Option VMState :=
  let source := instruction_decoder.decodeSourceRegister1 instruction
  let address := instruction_decoder.decodeImmutableAddressSmall instruction
  let register := s.getRegister source
  let localOffset := (s.getRegister RegisterID.RLO).value
  let idx := (address + localOffset % U32LIM) % U32LIM
  if idx < s.locals.length then
    some (({ s with locals := s.locals.set idx register }).clearRegister source)
  else Option.none

/-- load_local: the slot index is (imm16 as u64 + RLO) with u64 wrapping;
the access is get_unchecked (out of bounds is UB). -/
def loadLocal (s : VMState) (instruction : Nat) : Option VMState :=
  let destination := instruction_decoder.decodeDestinationRegister instruction
  let address := instruction_decoder.decodeImmutableAddressSmall instruction
  let localOffset := (s.getRegister RegisterID.RLO).value
  (s.locals.get? ((address + localOffset) % U64LIM)).map (fun register =>
    s.setValueInRegister destination register)

end VMState

/-- The argument-copy loop of invoke, recursing on the remaining
iteration count (sourceEnd - sourceIndex of the source loop):
registers[d] = old_frame.registers[si] for si in arg_start..arg_end.
Reading past the saved register file panics. -/
def copyArgumentsAux (oldRegisters : List Register) :
    Nat → Nat → Nat → List Register → Option (List Register)
  | 0, _, _, registers => some registers
  | count + 1, sourceIndex, destinationIndex, registers =>
    match oldRegisters.get? sourceIndex with
    | Option.none => Option.none
    | some v =>
      copyArgumentsAux oldRegisters count (sourceIndex + 1)
        (destinationIndex + 1) (registers.set destinationIndex v)

def copyArguments (oldRegisters : List Register) (registers : List Register)
    (sourceIndex sourceEnd destinationIndex : Nat) : Option (List Register) :=
  copyArgumentsAux oldRegisters (sourceEnd - sourceIndex) sourceIndex
    destinationIndex registers

namespace VMState

/-- invoke.  The callee register must hold a MemAddress; the object there
is a NovaFunction (push a frame, copy arguments, jump) or a
NativeFunction (external host call, not modelled), anything else raises
the called-a-None-value error.  An arity mismatch raises the arity
error. -/
def invoke (s : VMState) (instruction : Nat) : Option VMState :=
  let invokeRegister := instruction_decoder.decodeSourceRegister2 instruction
  let argumentStart := instruction_decoder.decodeDestinationRegister instruction
  let argumentNumber := instruction_decoder.decodeSourceRegister1 instruction
  let register := s.getRegister invokeRegister
  if register.kind ≠ RegisterValueKind.memAddress then
    some (s.emitErrorWithMessage ("Function not found"))
  else
    match s.loadObjectFromMemory register.value with
    | Option.none => Option.none
    | some (NovaObject.novaFunction function) =>
      if argumentNumber ≠ function.arity then
        some (s.emitErrorWithMessage ("Not enough function arguments.\n" ++
          toString function.arity ++ " are required\n" ++
          toString argumentNumber ++ " were provided"))
      else
        let p := s.newFrame function.numberOfLocals
        match copyArguments p.2.registers p.1.registers argumentStart
            (argumentStart + argumentNumber) 0 with
        | Option.none => Option.none
        | some newRegisters =>
          let s2 := { p.1 with registers := newRegisters }
          let r := s2.getRegister RegisterID.RPC
          some (s2.setValueInRegister RegisterID.RPC ⟨r.kind, function.address⟩)
    | some (NovaObject.nativeFunction _) => Option.none
    | some _ => some (s.emitErrorWithMessage ("Called a None Value"))

/-- print: writes to stdout only; the VM state is unchanged.  Address
dereferences can still be out of bounds (UB / panic). -/
def printOp (s : VMState) (instruction : Nat) : Option VMState :=
  let source := instruction_decoder.decodeSourceRegister1 instruction
  let register := s.getRegister source
  match register.kind with
  | RegisterValueKind.memAddress =>
    (s.loadObjectFromMemory register.value).map (fun _ => s)
  | RegisterValueKind.immAddress =>
    (s.immutables.get? register.value).map (fun _ => s)
  | _ => some s

/-- execute_instruction: decode the high 6 bits, look the opcode up in
BYTECODE_LOOKUP_TABLE (get_unchecked: a value at or above 44 is UB) and
dispatch.  The wildcard arm raises the unsupported-opcode error. -/
def executeInstruction (s : VMState) (instruction : Nat) : Option VMState :=
  let opcodeNumber := instruction_decoder.decodeOpcode instruction
  match BYTECODE_LOOKUP_TABLE.get? opcodeNumber with
  | Option.none => Option.none
  | some opcode =>
    match opcode with
    | OpCode.noInstruction => some s
    | OpCode.halt => some { s with running := false }
    | OpCode.neg => some (s.negate instruction)
    | OpCode.add => s.addOp instruction
    | OpCode.sub => s.subOp instruction
    | OpCode.mul => s.mulOp instruction
    | OpCode.div => s.divOp instruction
    | OpCode.pow => s.powOp instruction
    | OpCode.mod => s.modulusOp instruction
    | OpCode.loadK => some (s.loadConstantToRegister instruction)
    | OpCode.loadNil => some (s.loadNilToRegister instruction)
    | OpCode.loadBool => some (s.loadBoolToRegister instruction)
    | OpCode.loadFloat32 => s.loadFloat32ToRegister instruction
    | OpCode.loadFloat64 => s.loadFloat64ToRegister instruction
    | OpCode.loadInt32 => s.loadInt32ToRegister instruction
    | OpCode.loadInt64 => s.loadInt64ToRegister instruction
    | OpCode.move => some (s.moveRegister instruction)
    | OpCode.defineGlobalIndirect => s.defineGlobalIndirect instruction
    | OpCode.storeGlobalIndirect => s.storeGlobalIndirect instruction
    | OpCode.loadGlobalIndirect => s.loadGlobalIndirect instruction
    | OpCode.loadGlobal =>
      let destination := instruction_decoder.decodeDestinationRegister instruction
      let address := instruction_decoder.decodeImmutableAddressSmall instruction
      s.loadGlobalValue destination address
    | OpCode.allocateLocal => some (s.allocateLocals instruction)
    | OpCode.deallocateLocal => some (s.deallocateLocals instruction)
    | OpCode.storeLocal => s.storeLocal instruction
    | OpCode.loadLocal => s.loadLocal instruction
    | OpCode.less => s.lessOp instruction
    | OpCode.lessEqual => s.lessOrEqualOp instruction
    | OpCode.not => some (s.notOp instruction)
    | OpCode.equal => s.equalOp instruction
    | OpCode.jumpFalse => s.jumpIfFalse instruction
    | OpCode.jump => some (s.jumpOp instruction)
    | OpCode.invoke => s.invoke instruction
    | OpCode.returnNone => some s.returnNoneOp
    | OpCode.returnVal => some (s.returnValOp instruction)
    | OpCode.loadReturn => some (s.loadReturnOp instruction)
    | OpCode.print => s.printOp instruction
    | other =>
      some (s.emitErrorWithMessage ("Unsupported opcode instruction (" ++
        other.debugName ++ ")"))

/-- The state mutation at the top of start_vm: set running, point RPC (as
a MemAddress-kinded register) at offset + PC_START. -/
def startVMSetup (s : VMState) (offset : Nat) : VMState :=
  let programCounter : Register :=
    ⟨RegisterValueKind.memAddress, (offset + PC_START) % U32LIM⟩
  { s with running := true,
           registers := s.registers.set RegisterID.RPC programCounter }

/-- The dispatch loop of start_vm, fuel-indexed (the source loop can run
unboundedly; none means the fuel ran out or a step was UB / a panic).
After each executed instruction the loop checks RERR; when set it prints
the error (stderr only), clears RERR and returns exit code 1.  A normal
exit (running became false) returns 0. -/
def startVMLoop : Nat → VMState → Option (Nat × VMState)
  | 0, _ => Option.none
  | fuel + 1, s =>
    if s.running then
      match s.getNextInstruction with
      | Option.none => Option.none
      | some p =>
        match p.2.executeInstruction p.1 with
        | Option.none => Option.none
        | some s2 =>
          if s2.checkError then some (1, s2.clearError)
          else startVMLoop fuel s2
    else some (0, s)

def startVM (s : VMState) (offset fuel : Nat) : Option (Nat × VMState) :=
  (s.startVMSetup offset).startVMLoop fuel

end VMState

/-! ## Bytecode generator, numeric-literal lowering
(src/compiler/generator.rs).  add_integer appends instruction words to the
program; it is modelled as the list of appended words. -/

/-- add_integer: one upper-bound test against i32::MAX decides between the
LoadInt64 form (two payload words) and the LoadInt32 form (one payload
word, the value truncated by `as i32`). -/
def addInteger (number : Int) (registerIndex : Nat) : List Nat :=
  if number > 2147483647 then
    let header := InstructionBuilder.addDestinationRegister
      (InstructionBuilder.addOpcode 0 OpCode.loadInt64.toU32) registerIndex
    let numberBits := (number % 18446744073709551616).toNat
    let p := instruction_decoder.splitU64 numberBits
    [header, p.1, p.2]
  else
    let number32 := toI32Wrap number
    let header := InstructionBuilder.addDestinationRegister
      (InstructionBuilder.addOpcode 0 OpCode.loadInt32.toU32) registerIndex
    [header, toU32Bits number32]

/-! ## Concrete instances used by counterexamples and witnesses. -/

/-- A register file of the right size (23 slots, all empty). -/
def emptyRegisters : List Register := List.replicate NUM_REGISTERS Register.empty

/-- The LoadInt32 header word the generator emits for register 0. -/
def c1Header : Nat := InstructionBuilder.addDestinationRegister
  (InstructionBuilder.addOpcode 0 OpCode.loadInt32.toU32) 0

/-- An i32 payload (the literal 134217728 = 2^27) whose high 6 bits happen
to decode to LoadK. -/
def c1Payload : Nat := 134217728

def c1Program : Program := ⟨[c1Header, c1Payload], []⟩

/-- A VM that already holds five immutables (as after loading an earlier
module), so that the loader applies the offset 5. -/
def c1PreState : VMState :=
  { VMState.new with immutables := List.replicate 5 (NovaObject.string "s") }

/-- The saved caller frame used by the C2 witness (a non-main frame whose
saved RPC points at instruction 12). -/
def c2CallerFrame : Frame :=
  ⟨12, 0, false, emptyRegisters.set RegisterID.RPC
    ⟨RegisterValueKind.memAddress, 12⟩⟩

/-- A callee state about to return: RMax records 1 local, the locals stack
holds 2 entries, R3 holds the return value. -/
def c2Registers : List Register :=
  (emptyRegisters.set RegisterID.RMax ⟨RegisterValueKind.memAddress, 1⟩).set 3
    ⟨RegisterValueKind.int64, 7⟩

def c2State : VMState :=
  { VMState.new with
    registers := c2Registers,
    locals := [Register.empty, ⟨RegisterValueKind.int64, 9⟩],
    frames := [Frame.main, c2CallerFrame] }

def c2Inst : Nat := InstructionBuilder.newReturnValue 3

/-- The bytecode the generator produces for
  function f()  block  a := 1  return 1  end  end
  f()
followed by the generator-appended Halt.  Instruction 0 jumps over the
body; the body (instructions 1..9) allocates the block local, stores 1
into it, and returns 1 from inside the block, before the DeallocateLocal
at 8; the function descriptor records number_of_locals = 0 because the
block local lives in the block scope map, not the function scope map. -/
def c3Program : Program :=
  { instructions :=
      [ InstructionBuilder.newJumpInstruction 10 true,
        InstructionBuilder.newAllocateLocal 1,
        InstructionBuilder.addDestinationRegister
          (InstructionBuilder.addOpcode 0 OpCode.loadInt32.toU32) 0,
        1,
        InstructionBuilder.newStoreLocal 0 0,
        InstructionBuilder.addDestinationRegister
          (InstructionBuilder.addOpcode 0 OpCode.loadInt32.toU32) 0,
        1,
        InstructionBuilder.newReturnValue 0,
        InstructionBuilder.newDeallocateLocal 1,
        InstructionBuilder.newReturnNoneInstruction,
        InstructionBuilder.newLoadGlobalIndirect 0 0,
        InstructionBuilder.newInvokeInstruction 0 0 0,
        InstructionBuilder.newHaltInstruction ],
    immutables :=
      [ NovaObject.string "f",
        NovaObject.novaFunction ⟨"f", 1, 0, false, 0⟩ ] }

/-- Load c3Program into a fresh VM and run it to completion. -/
def c3Run : Option (Nat × VMState) :=
  (VMState.new.loadProgram c3Program).bind (fun s => s.startVM 0 30)

/-- Registers for the C6 counterexample: R1 and R2 hold Int64 3 and 2. -/
def c6IntRegisters : List Register :=
  (emptyRegisters.set 1 ⟨RegisterValueKind.int64, 3⟩).set 2
    ⟨RegisterValueKind.int64, 2⟩

def c6IntState : VMState := { VMState.new with registers := c6IntRegisters }

/-- Registers holding Float64 7.5 (bits 4620130267728707584) and Float64
2.5 (bits 4612811918334230528). -/
def c6FloatRegisters : List Register :=
  (emptyRegisters.set 1 ⟨RegisterValueKind.float64, 4620130267728707584⟩).set 2
    ⟨RegisterValueKind.float64, 4612811918334230528⟩

def c6FloatState : VMState :=
  { VMState.new with registers := c6FloatRegisters }

/-- Mod dst=0, src1=1, src2=2. -/
def c6Inst : Nat := InstructionBuilder.newBinaryOpInstruction OpCode.mod 0 1 2

/-- LoadBool dst=0, imm16=1 (a true literal). -/
def c7Inst : Nat := InstructionBuilder.newLoadBool 0 1

/-- R0 holds Int64 5 (a truthy non-Bool operand). -/
def c8Registers : List Register :=
  emptyRegisters.set 0 ⟨RegisterValueKind.int64, 5⟩

def c8State : VMState := { VMState.new with registers := c8Registers }

def c8Inst : Nat := InstructionBuilder.newNotInstruction 0

/-- A running VM whose single instruction is the reserved opcode This,
which the dispatch rejects with a runtime error. -/
def c9Sl : VMState :=
  { VMState.new with
    instructions := [InstructionBuilder.addOpcode 0 OpCode.this.toU32],
    running := true }

/-- c9Sl after fetching the instruction (RPC value advanced to 1). -/
def c9S1 : VMState :=
  { c9Sl with registers :=
      c9Sl.registers.set RegisterID.RPC ⟨RegisterValueKind.none, 1⟩ }

/-- c9S1 after the dispatch reported the unsupported opcode. -/
def c9S2 : VMState :=
  c9S1.emitErrorWithMessage ("Unsupported opcode instruction (This)")

/-- R1 and R2 hold Bool true and Bool false. -/
def c10Registers : List Register :=
  (emptyRegisters.set 1 ⟨RegisterValueKind.bool, 1⟩).set 2
    ⟨RegisterValueKind.bool, 0⟩

def c10State : VMState := { VMState.new with registers := c10Registers }

/-- Equal dst=0, src1=1, src2=2. -/
def c10Inst : Nat :=
  InstructionBuilder.newComparisonInstruction OpCode.equal 0 1 2

/-- The word built by add_opcode, add_destination_register,
add_source_register_1, add_source_register_2 on a fresh builder (the
composition every new_..._instruction builder uses), over the raw opcode
number. -/
def encodeFields (op d s1 s2 : Nat) : Nat :=
  InstructionBuilder.addSourceRegister2 (InstructionBuilder.addSourceRegister1
    (InstructionBuilder.addDestinationRegister
      (InstructionBuilder.addOpcode 0 op) d) s1) s2

/-- The word built with add_address_small and fields otherwise zero in the
low 16 bits. -/
def encodeImm16 (op d s1 imm : Nat) : Nat :=
  InstructionBuilder.addAddressSmall (InstructionBuilder.addSourceRegister1
    (InstructionBuilder.addDestinationRegister
      (InstructionBuilder.addOpcode 0 op) d) s1) imm

/-! ## Helper lemmas shared by the claim theorems. -/

theorem getRegister_set_self (s : VMState) (i : Nat) (v : Register)
    (h : i < s.registers.length) :
    (s.setValueInRegister i v).getRegister i = v := by
  simp [VMState.setValueInRegister, VMState.getRegister, List.getD,
    List.getElem?_set_eq_of_lt _ h]

theorem getRegister_set_ne (s : VMState) (i j : Nat) (v : Register)
    (h : i ≠ j) :
    (s.setValueInRegister i v).getRegister j = s.getRegister j := by
  simp [VMState.setValueInRegister, VMState.getRegister, List.getD,
    List.getElem?_set_ne h]

theorem popLocalsN_length (n : Nat) :
    ∀ l : List Register, (VMState.popLocalsN l n).length = l.length - n := by
  induction n with
  | zero => intro l; rfl
  | succ n ih =>
    intro l
    rw [VMState.popLocalsN, ih, List.length_dropLast]
    omega

theorem memory_emitError (s : VMState) (m : String) :
    (s.emitErrorWithMessage m).memory = s.memory ++ [NovaObject.string m] :=
  rfl

theorem getRegister_emitError_RERR (s : VMState) (m : String)
    (h : RegisterID.RERR < s.registers.length) :
    (s.emitErrorWithMessage m).getRegister RegisterID.RERR =
      ⟨RegisterValueKind.memAddress, s.memory.length⟩ :=
  getRegister_set_self _ _ _ h

theorem checkError_emitError (s : VMState) (m : String)
    (h : RegisterID.RERR < s.registers.length) :
    (s.emitErrorWithMessage m).checkError = true := by
  rw [VMState.checkError, getRegister_emitError_RERR s m h]
  rfl

theorem getRegister_emitError_ne (s : VMState) (m : String) (d : Nat)
    (h : RegisterID.RERR ≠ d) :
    (s.emitErrorWithMessage m).getRegister d = s.getRegister d :=
  getRegister_set_ne _ _ _ _ h

/-- What drop_frame does to a state whose frame stack ends in f: drain
R[RMax].value locals, pop f; if f is the main frame stop running
(registers untouched), else restore the saved registers and re-deliver
the RRTN value. -/
theorem dropFrame_spec (s : VMState) (fs : List Frame) (f : Frame)
    (hframes : s.frames = fs ++ [f]) :
    s.dropFrame =
      if f.isMain then
        { s with
          locals := VMState.popLocalsN s.locals
            ((s.getRegister RegisterID.RMax).value % U32LIM),
          frames := fs, running := false }
      else
        ({ s with
          locals := VMState.popLocalsN s.locals
            ((s.getRegister RegisterID.RMax).value % U32LIM),
          frames := fs,
          registers := f.registers } : VMState).setValueInRegister
          RegisterID.RRTN (s.getRegister RegisterID.RRTN) := by
  unfold VMState.dropFrame VMState.deallocateLocalVariables
  simp only [hframes, List.getLast?_concat, List.dropLast_concat]

/-! ## Claim theorems. -/

/-- C1: the module loader applies the immutable-index rewrite to every
32-bit word of the appended program, including the payload word that
follows a LoadInt32 header whenever its high 6 bits happen to decode to
LoadK (or one of the other three rewritten opcodes).  Loading the
two-word program [LoadInt32 r0, 134217728] into a VM already holding 5
immutables pushes the payload as 134217733: the loader does rewrite a
payload word, contradicting the claim that every payload word is pushed
unchanged. -/
theorem C1_loader_rewrites_int_payload :
    instruction_decoder.decodeOpcode c1Header = OpCode.loadInt32.toU32 ∧
    instruction_decoder.decodeOpcode c1Payload = OpCode.loadK.toU32 ∧
    (c1PreState.loadProgram c1Program).map VMState.instructions =
      some [c1Header, 134217733] ∧
    (134217733 : Nat) ≠ c1Payload := by
  exact ⟨by decide, by decide, by decide, by decide⟩

/-- C3: running the generated bytecode of a program whose function body
returns from inside a block (after the AllocateLocal of the block, before
its DeallocateLocal) completes with exit code 0 and with the shared
locals stack one entry longer than before the call (it was empty), even
though the frames stack is correctly restored to its pre-call height of
one: the frame-balance claim fails for the locals stack. -/
theorem C3_return_inside_block_leaks_local :
    c3Run.map (fun p => (p.1, p.2.locals.length, p.2.frames.length)) =
      some (0, 1, 1) ∧
    VMState.new.locals.length = 0 ∧
    VMState.new.frames.length = 1 := by
  exact ⟨by decide, rfl, rfl⟩

/-- C5: add_integer only tests the upper bound i32::MAX, so the integer
literal -3000000000, which is below i32::MIN, is emitted through the
LoadInt32 path: the single payload word is 1294967296 (the value
truncated by `as i32`), and the VM reloads it as the integer 1294967296,
not -3000000000. -/
theorem C5_add_integer_truncates_below_i32_min :
    addInteger (-3000000000) 0 = [c1Header, 1294967296] ∧
    instruction_decoder.decodeOpcode c1Header = OpCode.loadInt32.toU32 ∧
    u32ToI32 1294967296 = 1294967296 ∧
    (1294967296 : Int) ≠ -3000000000 ∧
    (-3000000000 : Int) < -2147483648 := by
  exact ⟨by decide, by decide, by decide, by decide, by decide⟩

/-- C2: the return protocol.  In a state whose frame stack ends in the
frame f and whose register file is full-sized, executing ReturnVal src1
(and likewise ReturnNone) sets RRTN to R[src1] (resp. None), pops exactly
R[RMax].value entries from the shared locals stack, pops the top frame,
and — when f is not the main frame — replaces the whole register file
with the registers saved in f and then overwrites the restored RRTN with
the chosen return value, leaving the running flag alone.  When f is the
main frame the VM halts instead of restoring registers. -/
theorem C2_return_protocol (s : VMState) (inst : Nat) (fs : List Frame)
    (f : Frame) (hregs : s.registers.length = NUM_REGISTERS)
    (hframes : s.frames = fs ++ [f])
    (hv32 : (s.getRegister RegisterID.RMax).value < U32LIM)
    (hlocals : (s.getRegister RegisterID.RMax).value ≤ s.locals.length) :
    (f.isMain = false →
      ((s.returnValOp inst).locals.length +
          (s.getRegister RegisterID.RMax).value = s.locals.length ∧
        (s.returnValOp inst).frames = fs ∧
        (s.returnValOp inst).registers = f.registers.set RegisterID.RRTN
          (s.getRegister (instruction_decoder.decodeSourceRegister1 inst)) ∧
        (s.returnValOp inst).running = s.running) ∧
      (s.returnNoneOp.locals.length +
          (s.getRegister RegisterID.RMax).value = s.locals.length ∧
        s.returnNoneOp.frames = fs ∧
        s.returnNoneOp.registers =
          f.registers.set RegisterID.RRTN Register.empty)) ∧
    (f.isMain = true →
      (s.returnValOp inst).running = false ∧
      (s.returnValOp inst).frames = fs ∧
      (s.returnValOp inst).locals.length +
          (s.getRegister RegisterID.RMax).value = s.locals.length ∧
      (s.returnValOp inst).registers = s.registers.set RegisterID.RRTN
        (s.getRegister (instruction_decoder.decodeSourceRegister1 inst))) := by
  have h21 : RegisterID.RRTN < s.registers.length := by rw [hregs]; decide
  have hlen : ∀ n, (VMState.popLocalsN s.locals n).length =
      s.locals.length - n := fun n => popLocalsN_length n s.locals
  have hMax : ∀ v : Register,
      (s.setValueInRegister RegisterID.RRTN v).getRegister RegisterID.RMax =
        s.getRegister RegisterID.RMax :=
    fun v => getRegister_set_ne s _ _ v (by decide)
  have hRtn : ∀ v : Register,
      (s.setValueInRegister RegisterID.RRTN v).getRegister RegisterID.RRTN =
        v := fun v => getRegister_set_self s _ v h21
  have hdrop : ∀ v : Register,
      (s.setValueInRegister RegisterID.RRTN v).dropFrame =
        if f.isMain then
          { s with
            registers := s.registers.set RegisterID.RRTN v,
            locals := VMState.popLocalsN s.locals (s.getRegister RegisterID.RMax).value,
            frames := fs, running := false }
        else
          { s with
            registers := f.registers.set RegisterID.RRTN v,
            locals := VMState.popLocalsN s.locals (s.getRegister RegisterID.RMax).value,
            frames := fs } := by
    intro v
    rw [dropFrame_spec (s.setValueInRegister RegisterID.RRTN v) fs f hframes,
      hMax v, hRtn v, Nat.mod_eq_of_lt hv32]
    by_cases hf : f.isMain <;> simp [hf, VMState.setValueInRegister]
  constructor
  · intro hmain
    refine ⟨⟨?_, ?_, ?_, ?_⟩, ?_, ?_, ?_⟩ <;>
      simp only [VMState.returnValOp, VMState.returnNoneOp, hdrop, hmain,
        Bool.false_eq_true, if_false, hlen] <;> omega
  · intro hmain
    refine ⟨?_, ?_, ?_, ?_⟩ <;>
      simp only [VMState.returnValOp, VMState.returnNoneOp, hdrop, hmain,
        if_true, hlen]
    all_goals omega

/-- C2 witness: a concrete callee state (RMax = 1, two stacked locals,
return value Int64 7 in R3) returning past a non-main caller frame. -/
theorem C2_return_protocol_witness :
    (c2State.registers.length = NUM_REGISTERS ∧
      c2State.frames = [Frame.main] ++ [c2CallerFrame] ∧
      (c2State.getRegister RegisterID.RMax).value < U32LIM ∧
      (c2State.getRegister RegisterID.RMax).value ≤ c2State.locals.length) ∧
    (((c2State.returnValOp c2Inst).locals.length +
          (c2State.getRegister RegisterID.RMax).value = c2State.locals.length ∧
        (c2State.returnValOp c2Inst).frames = [Frame.main] ∧
        (c2State.returnValOp c2Inst).registers =
          c2CallerFrame.registers.set RegisterID.RRTN
            (c2State.getRegister
              (instruction_decoder.decodeSourceRegister1 c2Inst)) ∧
        (c2State.returnValOp c2Inst).running = c2State.running) ∧
      (c2State.returnNoneOp.locals.length +
          (c2State.getRegister RegisterID.RMax).value = c2State.locals.length ∧
        c2State.returnNoneOp.frames = [Frame.main] ∧
        c2State.returnNoneOp.registers =
          c2CallerFrame.registers.set RegisterID.RRTN Register.empty)) :=
  ⟨⟨by decide, rfl, by decide, by decide⟩,
    (C2_return_protocol c2State c2Inst [Frame.main] c2CallerFrame (by decide)
      rfl (by decide) (by decide)).1 rfl⟩

/-- C4: the codec round-trips: decoding the word assembled by the builder
from (op, d, s1, s2) with op below 64 and the register fields below 16
returns exactly the four fields, and decode_immutable_address_small
recovers any 16-bit immediate added by add_address_small to a word whose
low 16 bits are otherwise zero. -/
theorem C4_codec_round_trip (op d s1 s2 imm : Nat) (hop : op ≤ 63)
    (hd : d ≤ 15) (hs1 : s1 ≤ 15) (hs2 : s2 ≤ 15) (himm : imm ≤ 65535) :
    instruction_decoder.decodeOpcode (encodeFields op d s1 s2) = op ∧
    instruction_decoder.decodeDestinationRegister (encodeFields op d s1 s2) = d ∧
    instruction_decoder.decodeSourceRegister1 (encodeFields op d s1 s2) = s1 ∧
    instruction_decoder.decodeSourceRegister2 (encodeFields op d s1 s2) = s2 ∧
    instruction_decoder.decodeImmutableAddressSmall (encodeImm16 op d s1 imm) =
      imm := by
  unfold encodeFields encodeImm16 InstructionBuilder.addOpcode
    InstructionBuilder.addDestinationRegister InstructionBuilder.addSourceRegister1
    InstructionBuilder.addSourceRegister2 InstructionBuilder.addAddressSmall
    instruction_decoder.decodeOpcode instruction_decoder.decodeDestinationRegister
    instruction_decoder.decodeSourceRegister1 instruction_decoder.decodeSourceRegister2
    instruction_decoder.decodeImmutableAddressSmall U32LIM
  refine ⟨?_, ?_, ?_, ?_, ?_⟩ <;> omega

/-- C4 witness at (op, d, s1, s2, imm) = (20, 3, 7, 9, 43210). -/
theorem C4_codec_round_trip_witness :
    (20 ≤ 63 ∧ 3 ≤ 15 ∧ 7 ≤ 15 ∧ 9 ≤ 15 ∧ 43210 ≤ 65535) ∧
    (instruction_decoder.decodeOpcode (encodeFields 20 3 7 9) = 20 ∧
      instruction_decoder.decodeDestinationRegister (encodeFields 20 3 7 9) = 3 ∧
      instruction_decoder.decodeSourceRegister1 (encodeFields 20 3 7 9) = 7 ∧
      instruction_decoder.decodeSourceRegister2 (encodeFields 20 3 7 9) = 9 ∧
      instruction_decoder.decodeImmutableAddressSmall
        (encodeImm16 20 3 7 43210) = 43210) :=
  ⟨by decide, C4_codec_round_trip 20 3 7 9 43210 (by decide) (by decide)
    (by decide) (by decide) (by decide)⟩

/-- C6 counterexample: executing Mod with both sources holding Int64
values (3 and 2) does not produce the Int64 remainder 1 in the
destination; it raises the cannot-find-modulus runtime error and leaves
the destination register unchanged (empty, not Int64 1). -/
theorem C6_mod_int64_counterexample :
    (c6IntState.modulusOp c6Inst).map
        (fun t => (t.getRegister 0, t.checkError)) =
      some (Register.empty, true) ∧
    Register.empty ≠ (⟨RegisterValueKind.int64, 1⟩ : Register) := by
  exact ⟨by decide, by decide⟩

/-- C6 amended: Mod computes a result only when both sources hold Float64
values, in which case both operands are truncated to i32 (Rust `as i32`)
and the destination receives, as a Float64, the i32 remainder — not the
IEEE-754 f64 remainder.  Every other kind pair, Int64 x Int64 included,
raises the cannot-find-modulus error, sets RERR, and leaves the
destination register unchanged. -/
theorem C6_mod_amended (s : VMState) (inst : Nat) (r1 r2 : Register)
    (hregs : s.registers.length = NUM_REGISTERS)
    (h1 : s.getRegister (instruction_decoder.decodeSourceRegister1 inst) = r1)
    (h2 : s.getRegister (instruction_decoder.decodeSourceRegister2 inst) = r2) :
    (¬(r1.kind = RegisterValueKind.float64 ∧
        r2.kind = RegisterValueKind.float64) →
      s.modulusOp inst = some (s.emitErrorWithMessage ("cannot find modulus " ++
        r1.kind.debugName ++ " by " ++ r2.kind.debugName)) ∧
      (s.modulusOp inst).map VMState.checkError = some true ∧
      (s.modulusOp inst).map (fun t => t.getRegister
          (instruction_decoder.decodeDestinationRegister inst)) =
        some (s.getRegister
          (instruction_decoder.decodeDestinationRegister inst))) ∧
    (r1.kind = RegisterValueKind.float64 →
      r2.kind = RegisterValueKind.float64 →
      f64BitsToI32 r2.value ≠ 0 →
      ¬(f64BitsToI32 r1.value = -2147483648 ∧ f64BitsToI32 r2.value = -1) →
      s.modulusOp inst = some (s.setValueInRegister
        (instruction_decoder.decodeDestinationRegister inst)
        ⟨RegisterValueKind.float64,
          intToF64Bits (Int.tmod (f64BitsToI32 r1.value)
            (f64BitsToI32 r2.value))⟩)) := by
  constructor
  · intro hk
    have hmod : s.modulusOp inst =
        some (s.emitErrorWithMessage ("cannot find modulus " ++
          r1.kind.debugName ++ " by " ++ r2.kind.debugName)) := by
      unfold VMState.modulusOp
      simp only [h1, h2]
      cases hk1 : r1.kind <;> cases hk2 : r2.kind <;> simp_all
    refine ⟨hmod, ?_, ?_⟩
    · rw [hmod]
      simp [checkError_emitError s _ (by rw [hregs]; decide)]
    · rw [hmod]
      have hdlt : instruction_decoder.decodeDestinationRegister inst < 16 :=
        Nat.mod_lt _ (by decide)
      have hne : RegisterID.RERR ≠
          instruction_decoder.decodeDestinationRegister inst := by
        unfold RegisterID.RERR; omega
      simp [getRegister_emitError_ne s _ _ hne]
  · intro hk1 hk2 hz hovf
    unfold VMState.modulusOp
    simp only [h1, h2, hk1, hk2]
    rw [if_neg (by tauto)]

/-- C6 witness: Int64 3 mod Int64 2 raises the error and leaves R0 alone;
Float64 7.5 mod Float64 2.5 stores, as Float64, the truncated remainder
7 rem 2 = 1 (1.0 has bits 4607182418800017408), where the IEEE-754
remainder of 7.5 and 2.5 would be 0.0. -/
theorem C6_mod_amended_witness :
    (c6IntState.modulusOp c6Inst = some (c6IntState.emitErrorWithMessage
        ("cannot find modulus " ++ (c6IntState.getRegister
          (instruction_decoder.decodeSourceRegister1 c6Inst)).kind.debugName ++
          " by " ++ (c6IntState.getRegister
          (instruction_decoder.decodeSourceRegister2 c6Inst)).kind.debugName)) ∧
      (c6IntState.modulusOp c6Inst).map VMState.checkError = some true ∧
      (c6IntState.modulusOp c6Inst).map (fun t => t.getRegister
          (instruction_decoder.decodeDestinationRegister c6Inst)) =
        some (c6IntState.getRegister
          (instruction_decoder.decodeDestinationRegister c6Inst))) ∧
    c6FloatState.modulusOp c6Inst = some (c6FloatState.setValueInRegister
      (instruction_decoder.decodeDestinationRegister c6Inst)
      ⟨RegisterValueKind.float64, intToF64Bits (Int.tmod
        (f64BitsToI32 (c6FloatState.getRegister
          (instruction_decoder.decodeSourceRegister1 c6Inst)).value)
        (f64BitsToI32 (c6FloatState.getRegister
          (instruction_decoder.decodeSourceRegister2 c6Inst)).value))⟩) ∧
    (intToF64Bits (Int.tmod (f64BitsToI32 4620130267728707584)
        (f64BitsToI32 4612811918334230528)) = 4607182418800017408 ∧
      instruction_decoder.decodeDestinationRegister c6Inst = 0) :=
  ⟨(C6_mod_amended c6IntState c6Inst _ _ (by decide) rfl rfl).1 (by decide),
    (C6_mod_amended c6FloatState c6Inst _ _ (by decide) rfl rfl).2 rfl rfl
      (by decide) (by decide),
    by decide, by decide⟩

/-- C7: executing LoadBool dst=0 imm16=1 leaves register 0 holding a value
whose kind is Float64 (with the raw value 1), not Bool: the source
constructs the register with RegisterValueKind::Float64. -/
theorem C7_load_bool_tags_float64 :
    (VMState.new.executeInstruction c7Inst).map (fun s => s.getRegister 0) =
      some ⟨RegisterValueKind.float64, 1⟩ ∧
    ((VMState.new.loadBoolToRegister c7Inst).getRegister 0).kind ≠
      RegisterValueKind.bool := by
  exact ⟨by decide, by decide⟩

/-- C8 counterexample: Not applied to R0 holding Int64 5 (truthy) yields
the register (Int64, 0) — the kind is Int64, not Bool, also when run
through the dispatch loop. -/
theorem C8_not_counterexample :
    (c8State.notOp c8Inst).getRegister 0 =
      ⟨RegisterValueKind.int64, 0⟩ ∧
    (c8State.executeInstruction c8Inst).map (fun t => t.getRegister 0) =
      some ⟨RegisterValueKind.int64, 0⟩ ∧
    RegisterValueKind.int64 ≠ RegisterValueKind.bool := by
  exact ⟨by decide, by decide, by decide⟩

/-- C8 amended: Not overwrites the value field of the source register with
1 when the operand is falsy and 0 when it is truthy, but keeps the kind
field of the operand (so the result is of kind Bool exactly when the
operand already was); exactly None-kinded values and Bool-kinded values
whose payload is not 1 are falsy. -/
theorem C8_not_amended (s : VMState) (inst : Nat)
    (hregs : s.registers.length = NUM_REGISTERS) :
    (s.notOp inst).getRegister (instruction_decoder.decodeSourceRegister1 inst) =
      ⟨(s.getRegister (instruction_decoder.decodeSourceRegister1 inst)).kind,
        if VMState.isTruthy
            (s.getRegister (instruction_decoder.decodeSourceRegister1 inst))
          then 0 else 1⟩ ∧
    (∀ r : Register, VMState.isTruthy r = false ↔
      (r.kind = RegisterValueKind.none ∨
        (r.kind = RegisterValueKind.bool ∧ r.value ≠ 1))) := by
  constructor
  · unfold VMState.notOp
    exact getRegister_set_self s _ _ (by
      rw [hregs]
      exact Nat.lt_of_lt_of_le (Nat.mod_lt _ (by decide)) (by decide))
  · intro r
    cases hk : r.kind <;> simp [VMState.isTruthy, hk]

/-- C8 witness for the amended statement, at the Int64-operand state. -/
theorem C8_not_amended_witness :
    c8State.registers.length = NUM_REGISTERS ∧
    ((c8State.notOp c8Inst).getRegister
        (instruction_decoder.decodeSourceRegister1 c8Inst) =
      ⟨(c8State.getRegister
          (instruction_decoder.decodeSourceRegister1 c8Inst)).kind,
        if VMState.isTruthy (c8State.getRegister
            (instruction_decoder.decodeSourceRegister1 c8Inst))
          then 0 else 1⟩ ∧
    (∀ r : Register, VMState.isTruthy r = false ↔
      (r.kind = RegisterValueKind.none ∨
        (r.kind = RegisterValueKind.bool ∧ r.value ≠ 1)))) :=
  ⟨by decide, C8_not_amended c8State c8Inst (by decide)⟩

/-- C9: a runtime error is reported by emit_error_with_message, which
appends the message string to the memory heap and points RERR at it as a
MemAddress; after any executed instruction that leaves RERR set, the
dispatch loop returns exit code 1 with RERR cleared back to None, and a
fresh start_vm sets running again. -/
theorem C9_error_reporting (s sl s1 s2 : VMState) (msg : String)
    (inst fuel off : Nat)
    (hsr : RegisterID.RERR < s.registers.length)
    (hrun : sl.running = true)
    (hfetch : sl.getNextInstruction = some (inst, s1))
    (hexec : s1.executeInstruction inst = some s2)
    (herr : s2.checkError = true) :
    (s.emitErrorWithMessage msg).memory =
      s.memory ++ [NovaObject.string msg] ∧
    (s.emitErrorWithMessage msg).getRegister RegisterID.RERR =
      ⟨RegisterValueKind.memAddress, s.memory.length⟩ ∧
    VMState.startVMLoop (fuel + 1) sl = some (1, s2.clearError) ∧
    (s2.clearError.getRegister RegisterID.RERR).kind =
      RegisterValueKind.none ∧
    (s2.clearError.startVMSetup off).running = true := by
  have hlt : RegisterID.RERR < s2.registers.length := by
    by_contra hge
    have hnone : s2.registers.get? RegisterID.RERR = Option.none :=
      List.get?_eq_none.mpr (by omega)
    unfold VMState.checkError VMState.getRegister List.getD at herr
    rw [hnone] at herr
    simp [Register.empty] at herr
  refine ⟨rfl, getRegister_emitError_RERR s msg hsr, ?_, ?_, rfl⟩
  · rw [VMState.startVMLoop, hrun]
    simp only [if_true, hfetch, hexec, herr]
  · have hset := getRegister_set_self s2 RegisterID.RERR Register.empty hlt
    unfold VMState.clearError
    rw [hset]
    rfl

/-- C9 witness: a one-instruction program holding the reserved opcode This
errors; the loop returns 1 and clears RERR. -/
theorem C9_error_reporting_witness :
    (RegisterID.RERR < VMState.new.registers.length ∧
      c9Sl.running = true ∧
      c9Sl.getNextInstruction =
        some (InstructionBuilder.addOpcode 0 OpCode.this.toU32, c9S1) ∧
      c9S1.executeInstruction
        (InstructionBuilder.addOpcode 0 OpCode.this.toU32) = some c9S2 ∧
      c9S2.checkError = true) ∧
    ((VMState.new.emitErrorWithMessage "boom").memory =
      VMState.new.memory ++ [NovaObject.string "boom"] ∧
    (VMState.new.emitErrorWithMessage "boom").getRegister RegisterID.RERR =
      ⟨RegisterValueKind.memAddress, VMState.new.memory.length⟩ ∧
    VMState.startVMLoop (0 + 1) c9Sl = some (1, c9S2.clearError) ∧
    (c9S2.clearError.getRegister RegisterID.RERR).kind =
      RegisterValueKind.none ∧
    (c9S2.clearError.startVMSetup 0).running = true) :=
  ⟨⟨by decide, rfl, by decide, by decide, by decide⟩,
    C9_error_reporting VMState.new c9Sl c9S1 c9S2 "boom"
      (InstructionBuilder.addOpcode 0 OpCode.this.toU32) 0 0 (by decide) rfl
      (by decide) (by decide) (by decide)⟩

/-- C10: Equal with both source registers of kind Bool raises the
cannot-compare runtime error (RERR becomes a MemAddress of the newly
appended message string) and leaves the destination register unchanged:
the Equal arm of compare_registers has no same-kind branch for Bool. -/
theorem C10_equal_bool_errors (s : VMState) (inst : Nat)
    (hregs : s.registers.length = NUM_REGISTERS)
    (h1 : (s.getRegister
        (instruction_decoder.decodeSourceRegister1 inst)).kind =
      RegisterValueKind.bool)
    (h2 : (s.getRegister
        (instruction_decoder.decodeSourceRegister2 inst)).kind =
      RegisterValueKind.bool) :
    s.equalOp inst =
      some (s.emitErrorWithMessage ("cannot compare Bool to Bool")) ∧
    (s.equalOp inst).map VMState.checkError = some true ∧
    (s.equalOp inst).map (fun t => t.getRegister
        (instruction_decoder.decodeDestinationRegister inst)) =
      some (s.getRegister
        (instruction_decoder.decodeDestinationRegister inst)) ∧
    (s.emitErrorWithMessage ("cannot compare Bool to Bool")).memory =
      s.memory ++ [NovaObject.string ("cannot compare Bool to Bool")] := by
  have hmain : s.equalOp inst =
      some (s.emitErrorWithMessage ("cannot compare Bool to Bool")) := by
    unfold VMState.equalOp VMState.compareRegisters
    simp only [h1, h2]
    simp [checkError_emitError s _ (by rw [hregs]; decide),
      RegisterValueKind.debugName]
  have hne : RegisterID.RERR ≠
      instruction_decoder.decodeDestinationRegister inst := by
    have hd : instruction_decoder.decodeDestinationRegister inst < 16 :=
      Nat.mod_lt _ (by decide)
    unfold RegisterID.RERR
    omega
  refine ⟨hmain, ?_, ?_, rfl⟩
  · rw [hmain]
    simp [checkError_emitError s _ (by rw [hregs]; decide)]
  · rw [hmain]
    simp [getRegister_emitError_ne s _ _ hne]

/-- C10 witness at R1 = Bool true, R2 = Bool false. -/
theorem C10_equal_bool_errors_witness :
    (c10State.registers.length = NUM_REGISTERS ∧
      (c10State.getRegister
        (instruction_decoder.decodeSourceRegister1 c10Inst)).kind =
        RegisterValueKind.bool ∧
      (c10State.getRegister
        (instruction_decoder.decodeSourceRegister2 c10Inst)).kind =
        RegisterValueKind.bool) ∧
    (c10State.equalOp c10Inst =
      some (c10State.emitErrorWithMessage ("cannot compare Bool to Bool")) ∧
    (c10State.equalOp c10Inst).map VMState.checkError = some true ∧
    (c10State.equalOp c10Inst).map (fun t => t.getRegister
        (instruction_decoder.decodeDestinationRegister c10Inst)) =
      some (c10State.getRegister
        (instruction_decoder.decodeDestinationRegister c10Inst)) ∧
    (c10State.emitErrorWithMessage ("cannot compare Bool to Bool")).memory =
      c10State.memory ++
        [NovaObject.string ("cannot compare Bool to Bool")]) :=
  ⟨⟨by decide, by decide, by decide⟩,
    C10_equal_bool_errors c10State c10Inst (by decide) (by decide)
      (by decide)⟩

end Nova
